import Mathlib

/-!
Shallow embedding of the xmpp-bot repository (Python) in Lean 4.

Covers, translated from the source files:
- src/xmpp_bot/exceptions.py       : the exception taxonomy (as `PyError`)
- src/xmpp_bot/config/constants.py : string constants and defaults
- src/xmpp_bot/config/settings.py  : JID validation, option parsing, `Settings`
- src/xmpp_bot/handlers.py         : the synchronous `HandlerRegistry`
- src/xmpp_bot/bot.py              : the `XmppBot` session client state and
  operations (lifecycle, message dispatch, send operations, handler management)

Python specifics are modelled explicitly: exceptions become `Except PyError`
or an `Option PyError` paired with the post-state (Python mutations performed
before a raise survive the raise); string truthiness becomes an emptiness
test; dictionaries become association lists with insertion-order semantics.
-/

/-- Exception taxonomy. `valueError`, `typeError` and `assertionError` are the
Python builtins; the rest are the classes of src/xmpp_bot/exceptions.py. -/
inductive PyError where
  | valueError (msg : String)
  | typeError (msg : String)
  | assertionError
  | configurationError (msg : String)
  | connectionError (msg : String)
  | authenticationError (msg : String)
  | notInitializedError (msg : String)
  | alreadyInitializedError (msg : String)
  | sendError (msg : String)
  | handlerExistsError (msg : String)
  | handlerNotFoundError (msg : String)
  | accessDeniedError (msg : String)
deriving DecidableEq

/-- Discriminator: is this error the dedicated ConfigurationError class? -/
def PyError.isConfigurationError : PyError → Bool
  | .configurationError _ => true
  | _ => false

/-- Boolean success test for an Except value. -/
def exceptIsOk {α : Type} : Except PyError α → Bool
  | .ok _ => true
  | .error _ => false

/-- Decidable equality on Except values, used to evaluate results. -/
instance {ε α : Type} [DecidableEq ε] [DecidableEq α] : DecidableEq (Except ε α) :=
  fun a b =>
    match a, b with
    | .ok x, .ok y =>
        if h : x = y then isTrue (by rw [h])
        else isFalse (by intro hc; cases hc; exact h rfl)
    | .error x, .error y =>
        if h : x = y then isTrue (by rw [h])
        else isFalse (by intro hc; cases hc; exact h rfl)
    | .ok _, .error _ => isFalse (by intro hc; cases hc)
    | .error _, .ok _ => isFalse (by intro hc; cases hc)

-- String constants from src/xmpp_bot/config/constants.py.
def envJid : String := "XMPP_JID"
def envPassword : String := "XMPP_PASSWORD"
def envDefaultReceiver : String := "XMPP_DEFAULT_RECEIVER"
def envBaseUrl : String := "XMPP_BASE_URL"
def envAllowedJids : String := "XMPP_ALLOWED_JIDS"
def envConnectTimeout : String := "XMPP_CONNECT_TIMEOUT"
def envKeepaliveInterval : String := "XMPP_KEEPALIVE_INTERVAL"
def envRetryDelay : String := "XMPP_RETRY_DELAY"
def envSendDelay : String := "XMPP_SEND_DELAY"
def envResource : String := "XMPP_RESOURCE"
def envDebug : String := "XMPP_DEBUG"

def defaultConnectTimeout : Int := 30
def defaultKeepaliveInterval : Int := 60
def defaultRetryDelay : Rat := 5
def defaultSendDelay : Rat := 1 / 10
def defaultResource : String := "xmpp-bot"
def defaultDebug : Bool := false

def errJidRequired : String := "JID is required"
def errPasswordRequired : String := "Password is required"
def errDefaultReceiverRequired : String := "Default receiver is required"
def errInvalidJid (jid : String) : String := "Invalid JID format: " ++ jid
def errAuthFailed (jid : String) : String := "Authentication failed for " ++ jid
def errNotInitialized : String := "Bot is not initialized. Call initialize() first."
def errAlreadyInitialized : String := "Bot is already initialized"
def errSendFailed (recipient : String) : String := "Failed to send message to " ++ recipient
def errHandlerExists (name : String) : String :=
  "Handler \x27" ++ name ++ "\x27 already registered"
def errHandlerNotFound (name : String) : String :=
  "Handler \x27" ++ name ++ "\x27 not found"

/-- Splits a character list at the first occurrence of `c`: the characters
before it and the characters after it, or `none` when `c` does not occur. -/
def splitFirst (c : Char) : List Char → Option (List Char × List Char)
  | [] => none
  | x :: xs =>
      if x = c then some ([], xs)
      else
        match splitFirst c xs with
        | none => none
        | some (l, r) => some (x :: l, r)

/-- Translation of JID_PATTERN from settings.py, the anchored regular
expression matching one-or-more non-at characters, an at sign, one-or-more
characters that are neither at nor slash, then optionally a slash followed by
one-or-more non-at characters. Transcribed: the input has exactly one at
sign with a non-empty prefix before it; the part after the at sign either has
no slash and is non-empty, or splits at its first slash into a non-empty
domain and a non-empty resource. -/
def jidPatternMatch (s : String) : Bool :=
  match splitFirst '@' s.toList with
  | none => false
  | some (localPart, rest) =>
      !localPart.isEmpty && !rest.contains '@' &&
        (match splitFirst '/' rest with
         | none => !rest.isEmpty
         | some (dom, res) => !dom.isEmpty && !res.isEmpty)

/-- The Python str.strip with no argument: surrounding whitespace removed. -/
def pyStrip (s : String) : String :=
  String.mk (((s.toList.dropWhile Char.isWhitespace).reverse.dropWhile
    Char.isWhitespace).reverse)

/-- The Python str.split on a one-character separator: the segments between
separator occurrences, empty segments included. -/
def splitChar (c : Char) : List Char → List (List Char)
  | [] => [[]]
  | x :: xs =>
      let r := splitChar c xs
      if x = c then [] :: r
      else
        match r with
        | [] => [[x]]
        | h :: t => (x :: h) :: t

/-- The Python str.lower for the ASCII tokens this program compares. -/
def pyLower (s : String) : String := String.mk (s.toList.map Char.toLower)

/-- Translation of the helper that parses a string to boolean: `None` yields
the default, otherwise the lowercased value is tested against the four
recognized truthy tokens. -/
def parseBool (value : Option String) (default : Bool) : Bool :=
  match value with
  | none => default
  | some v => decide (pyLower v ∈ ["true", "1", "yes", "on"])

/-- Translation of the helper that parses comma-separated JIDs: a missing or
empty value yields `none`; otherwise the value is split on commas, entries
are trimmed and empty entries dropped; an empty result yields `none`;
otherwise every entry must match the JID pattern (the first failing entry
raises ValueError) and the entries form the allow-list. The Python frozenset
is modelled as the list of entries, used only for membership. -/
def parseAllowedJids (value : Option String) : Except PyError (Option (List String)) :=
  match value with
  | none => .ok none
  | some v =>
      if v = "" then .ok none
      else
        let jids :=
          (((splitChar ',' v.toList).map String.mk).map pyStrip).filter (fun j => ¬(j = ""))
        if jids = [] then .ok none
        else
          match jids.find? (fun j => jidPatternMatch j = false) with
          | some bad => .error (.valueError (errInvalidJid bad))
          | none => .ok (some jids)

/-- Numeric value of a list of decimal digit characters. -/
def digitsVal (cs : List Char) : Nat :=
  cs.foldl (fun n c => n * 10 + (c.toNat - 48)) 0

/-- Translation of the Python int() conversion for the plain decimal strings
this program feeds it: surrounding whitespace is trimmed, an optional sign is
read, and the remainder must be one or more digits, else ValueError. -/
def pyIntParse (s : String) : Except PyError Int :=
  let t := pyStrip s
  let signAndDigits : Bool × List Char :=
    match t.toList with
    | '-' :: rest => (true, rest)
    | '+' :: rest => (false, rest)
    | cs => (false, cs)
  if signAndDigits.2 ≠ [] ∧ signAndDigits.2.all Char.isDigit then
    .ok (if signAndDigits.1 then -(digitsVal signAndDigits.2 : Int)
         else (digitsVal signAndDigits.2 : Int))
  else .error (.valueError ("invalid literal for int with base 10: " ++ s))

/-- Rational value of an optionally signed decimal with integer part `ip` and
fractional part `fp`. -/
def ratOfDecimal (neg : Bool) (ip fp : List Char) : Rat :=
  let v : Rat := (digitsVal ip : Rat) + (digitsVal fp : Rat) / ((10 : Rat) ^ fp.length)
  if neg then -v else v

/-- Translation of the Python float() conversion for the plain decimal
strings this program feeds it (an optional sign, digits, an optional point
and digits); exponent and special forms are outside the modelled subset and
are rejected, as they are never produced by the defaults or the tests. -/
def pyFloatParse (s : String) : Except PyError Rat :=
  let t := pyStrip s
  let signAndBody : Bool × List Char :=
    match t.toList with
    | '-' :: rest => (true, rest)
    | '+' :: rest => (false, rest)
    | cs => (false, cs)
  match splitFirst '.' signAndBody.2 with
  | none =>
      if signAndBody.2 ≠ [] ∧ signAndBody.2.all Char.isDigit then
        .ok (ratOfDecimal signAndBody.1 signAndBody.2 [])
      else .error (.valueError ("could not convert string to float: " ++ s))
  | some (ip, fp) =>
      if (ip ++ fp) ≠ [] ∧ ip.all Char.isDigit ∧ fp.all Char.isDigit then
        .ok (ratOfDecimal signAndBody.1 ip fp)
      else .error (.valueError ("could not convert string to float: " ++ s))

/-- Bare form of a JID string: the characters before the first slash. This is
the Python expression jid.split("/")[0], used both by the allow-list check in
settings.py and as the model of the bare attribute of a slixmpp JID. -/
def bareJid (jid : String) : String :=
  String.mk (jid.toList.takeWhile (fun c => c ≠ '/'))

/-- The Settings dataclass of settings.py. The two float tunables are
modelled as rationals; defaults are those of constants.py. Validation is not
performed by the constructor here (Lean structures cannot raise); it lives in
`Settings.validate` and the `Settings.create` wrapper below, which every
modelled construction path goes through, mirroring dataclass post-init. -/
structure Settings where
  jid : String
  password : String
  default_receiver : String
  base_url : String := ""
  allowed_jids : Option (List String) := none
  connect_timeout : Int := defaultConnectTimeout
  keepalive_interval : Int := defaultKeepaliveInterval
  retry_delay : Rat := defaultRetryDelay
  send_delay : Rat := defaultSendDelay
  resource : String := defaultResource
  debug : Bool := defaultDebug
deriving DecidableEq

/-- Translation of the dataclass post-init hook: the three required fields
must be non-empty (Python string truthiness) and the JID and default receiver
must match the JID pattern; each violation raises ValueError with the
corresponding message from constants.py. -/
def Settings.validate (s : Settings) : Except PyError Unit :=
  if s.jid = "" then .error (.valueError errJidRequired)
  else if s.password = "" then .error (.valueError errPasswordRequired)
  else if s.default_receiver = "" then .error (.valueError errDefaultReceiverRequired)
  else if jidPatternMatch s.jid = false then
    .error (.valueError (errInvalidJid s.jid))
  else if jidPatternMatch s.default_receiver = false then
    .error (.valueError (errInvalidJid s.default_receiver))
  else .ok ()

/-- Construction of a Settings value with post-init validation, the modelled
counterpart of calling the dataclass constructor. -/
def Settings.create (s : Settings) : Except PyError Settings :=
  match s.validate with
  | .error e => .error e
  | .ok _ => .ok s

/-- Translation of the full-JID property: the JID itself when it already
carries a slash, else the JID, a slash and the resource. -/
def Settings.full_jid (s : Settings) : String :=
  if s.jid.toList.contains '/' then s.jid else s.jid ++ "/" ++ s.resource

/-- Translation of the allow-list check: no allow-list admits everyone;
otherwise the candidate is stripped to its bare form (the part before the
first slash) and tested for membership. -/
def Settings.is_jid_allowed (s : Settings) (jid : String) : Bool :=
  match s.allowed_jids with
  | none => true
  | some allowed => decide (bareJid jid ∈ allowed)

/-- Translation of Settings.from_env. The environment is passed as a lookup
function (the model of os.getenv after dotenv loading). Fetches and parses
follow the source order: allow-list parsing first, then the two int and two
float tunables (each may raise ValueError), then the validated construction.
Missing variables take the string defaults the source builds with str(). -/
def Settings.from_env (env : String → Option String) : Except PyError Settings :=
  match parseAllowedJids (env envAllowedJids) with
  | .error e => .error e
  | .ok allowed =>
    match pyIntParse ((env envConnectTimeout).getD (toString defaultConnectTimeout)) with
    | .error e => .error e
    | .ok ct =>
      match pyIntParse ((env envKeepaliveInterval).getD (toString defaultKeepaliveInterval)) with
      | .error e => .error e
      | .ok ka =>
        match pyFloatParse ((env envRetryDelay).getD "5.0") with
        | .error e => .error e
        | .ok rd =>
          match pyFloatParse ((env envSendDelay).getD "0.1") with
          | .error e => .error e
          | .ok sd =>
            Settings.create
              { jid := (env envJid).getD ""
                password := (env envPassword).getD ""
                default_receiver := (env envDefaultReceiver).getD ""
                base_url := (env envBaseUrl).getD ""
                allowed_jids := allowed
                connect_timeout := ct
                keepalive_interval := ka
                retry_delay := rd
                send_delay := sd
                resource := (env envResource).getD defaultResource
                debug := parseBool (env envDebug) defaultDebug }

/-- Python values a from_dict mapping can hold: strings, booleans, integers
and lists of strings (the forms the source type-tests for). -/
inductive PyVal where
  | vstr (s : String)
  | vbool (b : Bool)
  | vint (n : Int)
  | vlist (l : List String)
deriving DecidableEq

/-- The Python str() conversion on the modelled values. -/
def PyVal.pyStr : PyVal → String
  | .vstr s => s
  | .vbool b => if b then "True" else "False"
  | .vint n => toString n
  | .vlist l => "[" ++ String.intercalate ", " l ++ "]"

/-- The Python bool() truthiness conversion on the modelled values: a string
is truthy when non-empty, a list when non-empty. -/
def PyVal.truthy : PyVal → Bool
  | .vstr s => !(decide (s = ""))
  | .vbool b => b
  | .vint n => !(decide (n = 0))
  | .vlist l => !(decide (l = []))

/-- Translation of Settings.from_dict. The mapping is a lookup function; a
missing key is `none`. The allow-list entry is parsed when a string and
turned into a set when a list (empty becomes no restriction); the numeric
tunables go through str() then int()/float(); the debug flag goes through
bool(), Python truthiness, NOT through the truthy-token parser; the string
fields go through str(). Construction then validates. -/
def Settings.from_dict (data : String → Option PyVal) : Except PyError Settings :=
  match (match data "allowed_jids" with
         | some (.vstr s) => parseAllowedJids (some s)
         | some (.vlist l) => .ok (if l.isEmpty then none else some l)
         | _ => .ok none) with
  | .error e => .error e
  | .ok allowed =>
    match (match data "connect_timeout" with
           | none => Except.ok defaultConnectTimeout
           | some raw => pyIntParse raw.pyStr) with
    | .error e => .error e
    | .ok ct =>
      match (match data "keepalive_interval" with
             | none => Except.ok defaultKeepaliveInterval
             | some raw => pyIntParse raw.pyStr) with
      | .error e => .error e
      | .ok ka =>
        match (match data "retry_delay" with
               | none => Except.ok defaultRetryDelay
               | some raw => pyFloatParse raw.pyStr) with
        | .error e => .error e
        | .ok rd =>
          match (match data "send_delay" with
                 | none => Except.ok defaultSendDelay
                 | some raw => pyFloatParse raw.pyStr) with
          | .error e => .error e
          | .ok sd =>
            Settings.create
              { jid := ((data "jid").getD (.vstr "")).pyStr
                password := ((data "password").getD (.vstr "")).pyStr
                default_receiver := ((data "default_receiver").getD (.vstr "")).pyStr
                base_url := ((data "base_url").getD (.vstr "")).pyStr
                allowed_jids := allowed
                connect_timeout := ct
                keepalive_interval := ka
                retry_delay := rd
                send_delay := sd
                resource := ((data "resource").getD (.vstr defaultResource)).pyStr
                debug := ((data "debug").getD (.vbool defaultDebug)).truthy }

/-- Outcome of invoking one handler: normal return or a raised exception
with its message. -/
inductive HOutcome where
  | ok
  | raised (msg : String)
deriving DecidableEq

/-- An inbound message stanza as the message callback sees it: the stanza
type, the body, and the sender JID (the full string form; its bare form is
computed with `bareJid`, the model of the bare attribute). -/
structure Message where
  mtype : String
  body : String
  mfrom : String
deriving DecidableEq

/-- An inbound presence stanza: sender, optional type, optional status. -/
structure Presence where
  pfrom : String
  ptype : Option String
  status : Option String

/-- A synchronous message handler: receives sender, body and the stanza, and
either returns or raises. -/
abbrev SyncMsgHandler := String → String → Message → HOutcome

/-- An async message handler; its awaited completion either returns or
raises, so it carries the same modelled signature. -/
abbrev AsyncMsgHandler := String → String → Message → HOutcome

/-- A synchronous presence handler. -/
abbrev SyncPresHandler := String → Option String → Option String → Presence → HOutcome

/-- An async presence handler. -/
abbrev AsyncPresHandler := String → Option String → Option String → Presence → HOutcome

/-- Association-list lookup keyed by handler name, the model of Python dict
membership and indexing. -/
def lookupName {α : Type} (n : String) : List (String × α) → Option α
  | [] => none
  | (k, v) :: rest => if k = n then some v else lookupName n rest

/-- Python dict assignment: overwrite in place when the key is present
(keeping its position), append otherwise. -/
def dictInsert {α : Type} (l : List (String × α)) (n : String) (v : α) :
    List (String × α) :=
  match l with
  | [] => [(n, v)]
  | (k, w) :: rest => if k = n then (k, v) :: rest else (k, w) :: dictInsert rest n v

/-- Python del on a dict: drop the entry with the given key (keys are unique
in a dict, so dropping the first occurrence is exact). -/
def dictRemove {α : Type} (l : List (String × α)) (n : String) :
    List (String × α) :=
  match l with
  | [] => []
  | (k, w) :: rest => if k = n then rest else (k, w) :: dictRemove rest n

/-- The synchronous HandlerRegistry of handlers.py: two independent
insertion-ordered mappings, one for message handlers, one for presence
handlers. -/
structure HandlerRegistry where
  message_handlers : List (String × SyncMsgHandler)
  presence_handlers : List (String × SyncPresHandler)

/-- The registry constructed with two empty mappings. -/
def emptyRegistry : HandlerRegistry :=
  { message_handlers := [], presence_handlers := [] }

/-- Translation of add_message_handler: raises HandlerExistsError when the
name is already registered, otherwise inserts. -/
def HandlerRegistry.add_message_handler (r : HandlerRegistry) (name : String)
    (handler : SyncMsgHandler) : Except PyError HandlerRegistry :=
  if (lookupName name r.message_handlers).isSome = true then
    .error (.handlerExistsError (errHandlerExists name))
  else .ok { r with message_handlers := dictInsert r.message_handlers name handler }

/-- Translation of remove_message_handler: raises HandlerNotFoundError when
the name is absent, otherwise deletes. -/
def HandlerRegistry.remove_message_handler (r : HandlerRegistry) (name : String) :
    Except PyError HandlerRegistry :=
  if (lookupName name r.message_handlers).isSome = false then
    .error (.handlerNotFoundError (errHandlerNotFound name))
  else .ok { r with message_handlers := dictRemove r.message_handlers name }

/-- Translation of add_presence_handler, as for messages. -/
def HandlerRegistry.add_presence_handler (r : HandlerRegistry) (name : String)
    (handler : SyncPresHandler) : Except PyError HandlerRegistry :=
  if (lookupName name r.presence_handlers).isSome = true then
    .error (.handlerExistsError (errHandlerExists name))
  else .ok { r with presence_handlers := dictInsert r.presence_handlers name handler }

/-- Translation of remove_presence_handler, as for messages. -/
def HandlerRegistry.remove_presence_handler (r : HandlerRegistry) (name : String) :
    Except PyError HandlerRegistry :=
  if (lookupName name r.presence_handlers).isSome = false then
    .error (.handlerNotFoundError (errHandlerNotFound name))
  else .ok { r with presence_handlers := dictRemove r.presence_handlers name }

/-- Translation of get_message_handlers: the snapshot list of values. -/
def HandlerRegistry.get_message_handlers (r : HandlerRegistry) : List SyncMsgHandler :=
  r.message_handlers.map Prod.snd

/-- Translation of get_presence_handlers. -/
def HandlerRegistry.get_presence_handlers (r : HandlerRegistry) : List SyncPresHandler :=
  r.presence_handlers.map Prod.snd

/-- Translation of clear: both mappings emptied. -/
def HandlerRegistry.clear (_ : HandlerRegistry) : HandlerRegistry := emptyRegistry

/-- The mutable instance state of the XmppBot singleton in bot.py: the
optional settings, the optional transport client handle (opaque), the
lifecycle flags, the synchronous registry and the two async handler
mappings. -/
structure BotState where
  settings : Option Settings
  client : Option Unit
  initialized : Bool
  connected : Bool
  session_started : Bool
  auth_error : Option String
  handlers : HandlerRegistry
  async_message_handlers : List (String × AsyncMsgHandler)
  async_presence_handlers : List (String × AsyncPresHandler)

/-- The state after first construction of the singleton: everything unset,
all mappings empty. -/
def initialState : BotState :=
  { settings := none
    client := none
    initialized := false
    connected := false
    session_started := false
    auth_error := none
    handlers := emptyRegistry
    async_message_handlers := []
    async_presence_handlers := [] }

/-- Abstraction of what the transport reports during the connect-wait loop:
the session-started signal fires, the auth-failed signal fires, or neither
fires within the timeout bound. -/
inductive ConnectOutcome where
  | success
  | authFailed
  | timeout

/-- Translation of the settings property accessor: raises NotInitializedError
when the settings slot is unset, returns the settings otherwise. The source
tests the settings slot itself, not the initialized flag. -/
def XmppBot.getSettings (b : BotState) : Except PyError Settings :=
  match b.settings with
  | none => .error (.notInitializedError errNotInitialized)
  | some s => .ok s

/-- Translation of initialize plus its inner connect step, with the
connect-wait loop abstracted by a `ConnectOutcome`. Returns the post-state
and the raised exception, if any; assignments made before a raise survive it,
as in Python. Steps in source order: the already-initialized guard; the
settings assignment; client creation, callback registration and flag reset;
the wait outcome. On timeout the transport is told to disconnect but the
client reference is kept and ConnectionError is raised; on auth failure the
auth-error marker was recorded by the callback and AuthenticationError naming
the JID is raised; on success the session-started flag was set by the
callback, the connected flag is set, and only then the initialized flag. The
settings-from-env branch taken when no settings argument is supplied is
covered separately by Settings.from_env. -/
def XmppBot.init (b : BotState) (settings : Settings) (outcome : ConnectOutcome) :
    BotState × Option PyError :=
  if b.initialized = true then
    (b, some (.alreadyInitializedError errAlreadyInitialized))
  else
    let b1 : BotState :=
      { b with settings := some settings
               client := some ()
               session_started := false
               auth_error := none }
    match outcome with
    | .timeout =>
        (b1, some (.connectionError
          ("Connection timed out after " ++ toString settings.connect_timeout ++ " seconds")))
    | .authFailed =>
        ({ b1 with auth_error := some "Authentication failed" },
         some (.authenticationError (errAuthFailed settings.jid)))
    | .success =>
        ({ b1 with session_started := true, connected := true, initialized := true }, none)

/-- Translation of disconnect: a no-op when not initialized; otherwise
best-effort transport close (no state effect), then the connected,
initialized and session-started flags are cleared, the client reference is
dropped and all three handler mappings are cleared. The settings slot is NOT
touched: the source never clears it. -/
def XmppBot.disconnect (b : BotState) : BotState :=
  if b.initialized = false then b
  else
    { b with connected := false
             initialized := false
             session_started := false
             client := none
             handlers := b.handlers.clear
             async_message_handlers := []
             async_presence_handlers := [] }

/-- Kind tag distinguishing the two dispatch paths of one event. -/
inductive DispatchKind where
  | sync
  | async
deriving DecidableEq

/-- Record of one handler invocation during a dispatch: which path, which
registered name, and how the handler returned. -/
structure Invocation where
  kind : DispatchKind
  name : String
  outcome : HOutcome
deriving DecidableEq

/-- Translation of the message callback. Guards in source order: stanza types
other than chat and normal are ignored; empty bodies are ignored; a sender
whose bare JID fails the allow-list check is logged and dropped. The source
asserts the settings slot is set; an unset slot aborts the callback with no
handler invoked (modelled as the empty trace). On acceptance every currently
registered synchronous handler is invoked in order, each inside its own
try/except so a raised outcome is recorded and dispatch continues, then every
async handler likewise. The returned list is the invocation trace; the
callback body itself contains no send call, so a dropped message entails no
response of any kind to the sender. -/
def XmppBot.on_message (b : BotState) (msg : Message) : List Invocation :=
  if ¬(msg.mtype = "chat" ∨ msg.mtype = "normal") then []
  else if msg.body = "" then []
  else
    match b.settings with
    | none => []
    | some st =>
      if st.is_jid_allowed (bareJid msg.mfrom) = false then []
      else
        b.handlers.message_handlers.map
          (fun p => { kind := DispatchKind.sync, name := p.1,
                      outcome := p.2 msg.mfrom msg.body msg })
        ++ b.async_message_handlers.map
          (fun p => { kind := DispatchKind.async, name := p.1,
                      outcome := p.2 msg.mfrom msg.body msg })

/-- Translation of the bot-level add_message_handler: unconditional dict
assignment into the async mapping; an existing name is overwritten and no
error is possible (the return type is the plain post-state). -/
def XmppBot.add_message_handler (b : BotState) (name : String)
    (handler : AsyncMsgHandler) : BotState :=
  { b with async_message_handlers := dictInsert b.async_message_handlers name handler }

/-- Translation of the bot-level remove_message_handler: delete from the
async mapping when the name is present there, otherwise fall through to the
synchronous registry remove, whose HandlerNotFoundError propagates. -/
def XmppBot.remove_message_handler (b : BotState) (name : String) :
    Except PyError BotState :=
  if (lookupName name b.async_message_handlers).isSome = true then
    .ok { b with async_message_handlers := dictRemove b.async_message_handlers name }
  else
    match b.handlers.remove_message_handler name with
    | .error e => .error e
    | .ok r => .ok { b with handlers := r }

/-- Translation of the bot-level add_presence_handler, as for messages. -/
def XmppBot.add_presence_handler (b : BotState) (name : String)
    (handler : AsyncPresHandler) : BotState :=
  { b with async_presence_handlers := dictInsert b.async_presence_handlers name handler }

/-- Translation of the bot-level remove_presence_handler, as for messages. -/
def XmppBot.remove_presence_handler (b : BotState) (name : String) :
    Except PyError BotState :=
  if (lookupName name b.async_presence_handlers).isSome = true then
    .ok { b with async_presence_handlers := dictRemove b.async_presence_handlers name }
  else
    match b.handlers.remove_presence_handler name with
    | .error e => .error e
    | .ok r => .ok { b with handlers := r }

/-- Translation of reply_to_user: raises NotInitializedError before a
successful initialize; raises SendError naming the recipient when not
connected or the client handle is absent; otherwise asks the transport to
send (its success abstracted by `transportOk`) and on transport failure
raises SendError naming the recipient, chained from the cause. Returns the
list of (recipient, body) pairs handed to the transport and the raised
exception, if any. -/
def XmppBot.reply_to_user (b : BotState) (message jid : String) (transportOk : Bool) :
    List (String × String) × Option PyError :=
  if b.initialized = false then
    ([], some (.notInitializedError errNotInitialized))
  else if b.connected = false ∨ b.client = none then
    ([], some (.sendError (errSendFailed jid)))
  else if transportOk then ([(jid, message)], none)
  else ([], some (.sendError (errSendFailed jid)))

/-- Translation of send_message: raises NotInitializedError when not
initialized; asserts the settings slot and delegates to reply_to_user with
the default receiver. -/
def XmppBot.send_message (b : BotState) (message : String) (transportOk : Bool) :
    List (String × String) × Option PyError :=
  if b.initialized = false then
    ([], some (.notInitializedError errNotInitialized))
  else
    match b.settings with
    | none => ([], some .assertionError)
    | some st => XmppBot.reply_to_user b message st.default_receiver transportOk

/-- The Python str.rstrip with a slash argument. -/
def rstripSlash (s : String) : String :=
  String.mk ((s.toList.reverse.dropWhile (fun c => c = '/')).reverse)

/-- The Python str.lstrip with a slash argument. -/
def lstripSlash (s : String) : String :=
  String.mk (s.toList.dropWhile (fun c => c = '/'))

/-- Translation of send_url: raises NotInitializedError when not initialized;
otherwise joins the base URL (trailing slashes stripped) and the path
(leading slashes stripped) with one slash and delegates to send_message. -/
def XmppBot.send_url (b : BotState) (path : String) (transportOk : Bool) :
    List (String × String) × Option PyError :=
  if b.initialized = false then
    ([], some (.notInitializedError errNotInitialized))
  else
    match b.settings with
    | none => ([], some .assertionError)
    | some st =>
        XmppBot.send_message b (rstripSlash st.base_url ++ "/" ++ lstripSlash path)
          transportOk

-- Concrete sample values used by witnesses and counterexamples.

/-- A well-formed minimal settings value with no allow-list. -/
def settingsW : Settings :=
  { jid := "bot@example.com", password := "secret", default_receiver := "user@example.com" }

/-- The same settings with an allow-list of one bare address. -/
def settingsAllowW : Settings :=
  { settingsW with allowed_jids := some ["user@example.com"] }

/-- Settings whose allow-list consists only of a resource-carrying entry. -/
def settingsResOnlyW : Settings :=
  { settingsW with allowed_jids := some ["user@example.com/res"] }

/-- Settings with an empty JID, for the validation counterexample. -/
def settingsEmptyJidW : Settings :=
  { jid := "", password := "secret", default_receiver := "user@example.com" }

/-- A synchronous message handler that returns normally. -/
def hOk : SyncMsgHandler := fun _ _ _ => HOutcome.ok

/-- A synchronous message handler that raises. -/
def hRaise : SyncMsgHandler := fun _ _ _ => HOutcome.raised "boom"

/-- An async message handler that returns normally. -/
def aOk : AsyncMsgHandler := fun _ _ _ => HOutcome.ok

/-- A synchronous presence handler that returns normally. -/
def pOk : SyncPresHandler := fun _ _ _ _ => HOutcome.ok

/-- An async presence handler that returns normally. -/
def apOk : AsyncPresHandler := fun _ _ _ _ => HOutcome.ok

/-- A bot state holding the allow-listed settings, three registered sync
message handlers of which the middle one raises, and one async handler. -/
def botAllowW : BotState :=
  { initialState with
      settings := some settingsAllowW
      handlers := { message_handlers := [("h1", hOk), ("h2", hRaise), ("h3", hOk)]
                    presence_handlers := [] }
      async_message_handlers := [("a1", aOk)] }

/-- An accepted chat message from an allow-listed sender with a resource. -/
def msgOkW : Message :=
  { mtype := "chat", body := "hello", mfrom := "user@example.com/resourceX" }

/-- A chat message from a sender missing from the allow-list. -/
def msgStrangerW : Message :=
  { mtype := "chat", body := "hello", mfrom := "stranger@example.com/phone" }

/-- A bot state that is initialized but not connected. -/
def botInitNotConnW : BotState :=
  { initialState with initialized := true, settings := some settingsW }

/-- The state reached by a successful initialize from the fresh singleton
followed by a disconnect. -/
def botAfterInitDiscW : BotState :=
  XmppBot.disconnect (XmppBot.init initialState settingsW ConnectOutcome.success).1

/-- An environment providing no variables at all. -/
def envEmptyW : String → Option String := fun _ => none

/-- An environment supplying the three required fields well-formed and the
debug variable as the string false. -/
def envDebugFalseW : String → Option String := fun k =>
  if k = envJid then some "bot@example.com"
  else if k = envPassword then some "secret"
  else if k = envDefaultReceiver then some "user@example.com"
  else if k = envDebug then some "false"
  else none

/-- The settings value that from-environment construction produces for
`envDebugFalseW` (construction succeeds there, as the witness proves). -/
def settingsEnvDebugW : Settings :=
  match Settings.from_env envDebugFalseW with
  | .ok s => s
  | .error _ => settingsW

/-- A mapping providing no keys at all. -/
def dataEmptyW : String → Option PyVal := fun _ => none

/-- A mapping with well-formed required fields and the debug flag supplied as
the string false. -/
def dataDebugFalseW : String → Option PyVal := fun k =>
  if k = "jid" then some (.vstr "bot@example.com")
  else if k = "password" then some (.vstr "secret")
  else if k = "default_receiver" then some (.vstr "user@example.com")
  else if k = "debug" then some (.vstr "false")
  else none

/-- The debug field of a settings construction result, when it succeeded. -/
def exceptDebug (r : Except PyError Settings) : Option Bool :=
  match r with
  | .ok s => some s.debug
  | .error _ => none

-- Helper lemmas (shared; none of them is a claim theorem).

/-- Every character of a takeWhile prefix satisfies the predicate. -/
theorem mem_takeWhile_sat {p : Char → Bool} {a : Char} {l : List Char}
    (h : a ∈ l.takeWhile p) : p a = true :=
  List.mem_takeWhile_imp h

/-- The bare form of a JID contains no slash. -/
theorem bareJid_no_slash (jid : String) : '/' ∉ (bareJid jid).toList := by
  intro hmem
  have h := mem_takeWhile_sat (p := fun c => c ≠ '/') hmem
  simp at h

/-- Looking up a key right after inserting it yields the inserted value. -/
theorem lookupName_dictInsert {α : Type} (l : List (String × α)) (n : String) (v : α) :
    lookupName n (dictInsert l n v) = some v := by
  induction l with
  | nil => simp [dictInsert, lookupName]
  | cons p rest ih =>
      obtain ⟨k, w⟩ := p
      by_cases h : k = n <;> simp [dictInsert, lookupName, h, ih]

/-- A successful validated construction returns its argument unchanged. -/
theorem create_ok_eq {x s : Settings} (h : Settings.create x = .ok s) : s = x := by
  rw [Settings.create] at h
  split at h
  · cases h
  · cases h
    rfl

/-- The dispatch equation of the message callback on an accepted message:
the trace is the sync map followed by the async map. -/
theorem on_message_accepted (b : BotState) (msg : Message) (st : Settings)
    (hset : b.settings = some st)
    (h1 : msg.mtype = "chat" ∨ msg.mtype = "normal")
    (h2 : msg.body ≠ "")
    (h3 : st.is_jid_allowed (bareJid msg.mfrom) = true) :
    XmppBot.on_message b msg =
      b.handlers.message_handlers.map
        (fun p => { kind := DispatchKind.sync, name := p.1,
                    outcome := p.2 msg.mfrom msg.body msg })
      ++ b.async_message_handlers.map
        (fun p => { kind := DispatchKind.async, name := p.1,
                    outcome := p.2 msg.mfrom msg.body msg }) := by
  rw [XmppBot.on_message, if_neg (not_not_intro h1), if_neg h2, hset]
  dsimp only
  rw [if_neg (by rw [h3]; simp)]

/-- The message callback drops a message failing any of the three guards. -/
theorem on_message_rejected (b : BotState) (msg : Message) (st : Settings)
    (hset : b.settings = some st)
    (hrej : ¬((msg.mtype = "chat" ∨ msg.mtype = "normal") ∧ msg.body ≠ "" ∧
        st.is_jid_allowed (bareJid msg.mfrom) = true)) :
    XmppBot.on_message b msg = [] := by
  by_cases h1 : msg.mtype = "chat" ∨ msg.mtype = "normal"
  · by_cases h2 : msg.body = ""
    · rw [XmppBot.on_message, if_neg (not_not_intro h1), if_pos h2]
    · by_cases h3 : st.is_jid_allowed (bareJid msg.mfrom) = true
      · exact absurd ⟨h1, h2, h3⟩ hrej
      · have h3f : st.is_jid_allowed (bareJid msg.mfrom) = false := by
          cases hb : st.is_jid_allowed (bareJid msg.mfrom)
          · rfl
          · exact absurd hb h3
        rw [XmppBot.on_message, if_neg (not_not_intro h1), if_neg h2, hset]
        dsimp only
        rw [if_pos h3f]
  · rw [XmppBot.on_message, if_pos h1]

/-- C1: for every inbound message event, handlers are dispatched if and only
if the stanza type is chat or normal, the body is non-empty, and the sender
bare address passes the Settings allow-list check; a sender rejected by the
allow-list is dropped: the invocation trace is empty, so no sync or async
handler runs, and since the callback body performs no send, the sender
receives no response. -/
theorem C1_message_dispatch_gate (b : BotState) (msg : Message) (st : Settings)
    (hset : b.settings = some st) :
    (((msg.mtype = "chat" ∨ msg.mtype = "normal") ∧ msg.body ≠ "" ∧
        st.is_jid_allowed (bareJid msg.mfrom) = true) →
      XmppBot.on_message b msg =
        b.handlers.message_handlers.map
          (fun p => { kind := DispatchKind.sync, name := p.1,
                      outcome := p.2 msg.mfrom msg.body msg })
        ++ b.async_message_handlers.map
          (fun p => { kind := DispatchKind.async, name := p.1,
                      outcome := p.2 msg.mfrom msg.body msg }))
    ∧ (¬((msg.mtype = "chat" ∨ msg.mtype = "normal") ∧ msg.body ≠ "" ∧
        st.is_jid_allowed (bareJid msg.mfrom) = true) →
      XmppBot.on_message b msg = []) := by
  constructor
  · intro h
    exact on_message_accepted b msg st hset h.1 h.2.1 h.2.2
  · intro h
    exact on_message_rejected b msg st hset h

/-- Witness for C1: a stranger outside the allow-list is dropped with an
empty trace, while an allow-listed sender reaches every handler. -/
theorem C1_message_dispatch_gate_witness :
    XmppBot.on_message botAllowW msgStrangerW = [] ∧
    (XmppBot.on_message botAllowW msgOkW).map Invocation.name = ["h1", "h2", "h3", "a1"] := by
  constructor
  · exact (C1_message_dispatch_gate botAllowW msgStrangerW settingsAllowW rfl).2 (by decide)
  · have h := (C1_message_dispatch_gate botAllowW msgOkW settingsAllowW rfl).1
      ⟨Or.inl rfl, by decide, by decide⟩
    rw [h]
    decide

/-- C2: is_jid_allowed returns true for every candidate when the allow-list
is unset, and compares candidates with their resource suffix stripped: with
allow-list of exactly user at example.com it accepts the bare address and the
same address with a resource, and rejects a stranger. -/
theorem C2_is_jid_allowed_semantics :
    (∀ (st : Settings) (jid : String), st.allowed_jids = none →
        st.is_jid_allowed jid = true)
    ∧ settingsAllowW.is_jid_allowed "user@example.com" = true
    ∧ settingsAllowW.is_jid_allowed "user@example.com/resourceX" = true
    ∧ settingsAllowW.is_jid_allowed "stranger@example.com" = false := by
  refine ⟨fun st jid h => ?_, by decide, by decide, by decide⟩
  rw [Settings.is_jid_allowed, h]

/-- Witness for C2: the unset allow-list branch at a concrete address. -/
theorem C2_is_jid_allowed_semantics_witness :
    settingsW.is_jid_allowed "anyone@anywhere.example" = true :=
  C2_is_jid_allowed_semantics.1 settingsW "anyone@anywhere.example" rfl

/-- C3: within one accepted message dispatch every registered handler is
invoked exactly once even when some handlers raise: the name trace equals
the registered sync names followed by the registered async names, whatever
the individual outcomes are — a raised outcome is recorded in place and the
remaining sync and async handlers still appear, and the callback returns the
full trace instead of propagating any handler exception. -/
theorem C3_handler_fault_isolation (b : BotState) (msg : Message) (st : Settings)
    (hset : b.settings = some st)
    (h1 : msg.mtype = "chat" ∨ msg.mtype = "normal")
    (h2 : msg.body ≠ "")
    (h3 : st.is_jid_allowed (bareJid msg.mfrom) = true) :
    (XmppBot.on_message b msg).map Invocation.name =
      b.handlers.message_handlers.map Prod.fst
        ++ b.async_message_handlers.map Prod.fst := by
  rw [on_message_accepted b msg st hset h1 h2 h3]
  simp only [List.map_append, List.map_map]
  rfl

/-- Witness for C3: with three sync handlers of which the middle one raises
and one async handler, all four names appear exactly once, and the concrete
trace shows the raised outcome recorded between two completed handlers. -/
theorem C3_handler_fault_isolation_witness :
    (XmppBot.on_message botAllowW msgOkW).map Invocation.name = ["h1", "h2", "h3", "a1"] ∧
    XmppBot.on_message botAllowW msgOkW =
      [{ kind := DispatchKind.sync, name := "h1", outcome := HOutcome.ok },
       { kind := DispatchKind.sync, name := "h2", outcome := HOutcome.raised "boom" },
       { kind := DispatchKind.sync, name := "h3", outcome := HOutcome.ok },
       { kind := DispatchKind.async, name := "a1", outcome := HOutcome.ok }] := by
  constructor
  · have h := C3_handler_fault_isolation botAllowW msgOkW settingsAllowW rfl
      (Or.inl rfl) (by decide) (by decide)
    rw [h]
    decide
  · decide

/-- Validation errors raised by the post-init hook are always the Python
builtin ValueError, never the dedicated ConfigurationError class. -/
theorem validate_error_is_valueError (s : Settings) (e : PyError)
    (h : s.validate = .error e) : e.isConfigurationError = false := by
  rw [Settings.validate] at h
  split_ifs at h <;> cases h <;> rfl

/-- Lifting of the previous lemma through the construction wrapper. -/
theorem create_error_is_valueError {s : Settings} {e : PyError}
    (h : Settings.create s = .error e) : e.isConfigurationError = false := by
  rw [Settings.create] at h
  split at h
  next heq =>
    cases h
    exact validate_error_is_valueError s _ heq
  next => cases h

/-- Counterexample to C4 as stated: constructing Settings with an empty
identity fails with the builtin ValueError, which is not the dedicated
ConfigurationError condition the claim names. -/
theorem C4_configuration_error_counterexample :
    Settings.create settingsEmptyJidW = .error (.valueError errJidRequired) ∧
    PyError.isConfigurationError (.valueError errJidRequired) = false :=
  ⟨rfl, rfl⟩

/-- C4 amended: constructing Settings (directly or via from-environment or
from-mapping) with an empty identity, empty credential, empty default
recipient, or an address failing the grammar always fails at construction,
before any network action, with the Python builtin ValueError carrying the
field-specific message; the dedicated ConfigurationError class exists in the
taxonomy but is never the raised condition. Construction with well-formed
fields succeeds. -/
theorem C4_settings_validation_amended (s : Settings) :
    (s.jid = "" → Settings.create s = .error (.valueError errJidRequired))
  ∧ (s.jid ≠ "" → s.password = "" →
      Settings.create s = .error (.valueError errPasswordRequired))
  ∧ (s.jid ≠ "" → s.password ≠ "" → s.default_receiver = "" →
      Settings.create s = .error (.valueError errDefaultReceiverRequired))
  ∧ (s.jid ≠ "" → s.password ≠ "" → s.default_receiver ≠ "" →
      jidPatternMatch s.jid = false →
      Settings.create s = .error (.valueError (errInvalidJid s.jid)))
  ∧ (s.jid ≠ "" → s.password ≠ "" → s.default_receiver ≠ "" →
      jidPatternMatch s.jid = true → jidPatternMatch s.default_receiver = false →
      Settings.create s = .error (.valueError (errInvalidJid s.default_receiver)))
  ∧ (s.jid ≠ "" → s.password ≠ "" → s.default_receiver ≠ "" →
      jidPatternMatch s.jid = true → jidPatternMatch s.default_receiver = true →
      Settings.create s = .ok s)
  ∧ (∀ e, Settings.create s = .error e → e.isConfigurationError = false)
  ∧ Settings.from_env envEmptyW = .error (.valueError errJidRequired)
  ∧ Settings.from_dict dataEmptyW = .error (.valueError errJidRequired) := by
  refine ⟨?_, ?_, ?_, ?_, ?_, ?_, fun e he => create_error_is_valueError he, ?_, ?_⟩
  · intro h
    simp [Settings.create, Settings.validate, h]
  · intro h1 h2
    simp [Settings.create, Settings.validate, h1, h2]
  · intro h1 h2 h3
    simp [Settings.create, Settings.validate, h1, h2, h3]
  · intro h1 h2 h3 h4
    simp [Settings.create, Settings.validate, h1, h2, h3, h4]
  · intro h1 h2 h3 h4 h5
    simp [Settings.create, Settings.validate, h1, h2, h3, h4, h5]
  · intro h1 h2 h3 h4 h5
    simp [Settings.create, Settings.validate, h1, h2, h3, h4, h5]
  · decide
  · decide

/-- Witness for C4 amended: well-formed fields succeed. -/
theorem C4_settings_validation_amended_witness :
    Settings.create settingsW = Except.ok settingsW :=
  (C4_settings_validation_amended settingsW).2.2.2.2.2.1 (by decide) (by decide)
    (by decide) (by decide) (by decide)

/-- Counterexample to C5 as stated: after a successful initialize from the
fresh state followed by disconnect, the initialized flag is cleared but the
settings accessor still returns the settings — disconnect never clears the
settings slot, so the claimed if-and-only-if fails. -/
theorem C5_settings_lifetime_counterexample :
    botAfterInitDiscW.initialized = false ∧
    XmppBot.getSettings botAfterInitDiscW = .ok settingsW :=
  ⟨rfl, rfl⟩

/-- C5 amended: the settings accessor succeeds exactly when the settings slot
is occupied; the slot is assigned inside initialize (even when the connect
step then fails) and is never cleared — disconnect leaves it untouched — so
the accessor fails with not-initialized only before the first initialize
attempt, not after disconnect. -/
theorem C5_settings_lifetime_amended :
    (∀ b : BotState, exceptIsOk (XmppBot.getSettings b) = b.settings.isSome)
  ∧ (∀ (b : BotState) (s : Settings) (o : ConnectOutcome),
      b.initialized = false → ((XmppBot.init b s o).1).settings = some s)
  ∧ (∀ b : BotState, (XmppBot.disconnect b).settings = b.settings)
  ∧ XmppBot.getSettings initialState = .error (.notInitializedError errNotInitialized) := by
  refine ⟨fun b => ?_, fun b s o h => ?_, fun b => ?_, rfl⟩
  · cases hb : b.settings <;> simp [XmppBot.getSettings, exceptIsOk, hb]
  · rw [XmppBot.init, if_neg (by rw [h]; simp)]
    cases o <;> rfl
  · rw [XmppBot.disconnect]
    split <;> rfl

/-- Witness for C5 amended: initialize from the fresh state assigns the
settings slot. -/
theorem C5_settings_lifetime_amended_witness :
    ((XmppBot.init initialState settingsW ConnectOutcome.success).1).settings
      = some settingsW :=
  C5_settings_lifetime_amended.2.1 initialState settingsW ConnectOutcome.success rfl

/-- C6: send_message, reply_to_user and send_url each fail with
NotInitializedError whenever invoked while the initialized flag is unset, and
reply_to_user invoked while initialized but not connected, or with no client
handle, fails with a SendError whose message names the target recipient. -/
theorem C6_send_guards (b : BotState) (message jid path : String) (t : Bool) :
    (b.initialized = false →
      (XmppBot.send_message b message t).2 = some (.notInitializedError errNotInitialized)
      ∧ (XmppBot.reply_to_user b message jid t).2
          = some (.notInitializedError errNotInitialized)
      ∧ (XmppBot.send_url b path t).2 = some (.notInitializedError errNotInitialized))
  ∧ (b.initialized = true → b.connected = false ∨ b.client = none →
      (XmppBot.reply_to_user b message jid t).2 = some (.sendError (errSendFailed jid))) := by
  constructor
  · intro h
    refine ⟨?_, ?_, ?_⟩ <;>
      simp [XmppBot.send_message, XmppBot.reply_to_user, XmppBot.send_url, h]
  · intro h hnc
    rw [XmppBot.reply_to_user, if_neg (by rw [h]; simp), if_pos hnc]

/-- Witness for C6: the uninitialized fresh state and an initialized but
disconnected state, at concrete arguments. -/
theorem C6_send_guards_witness :
    (XmppBot.send_message initialState "hi" true).2
        = some (.notInitializedError errNotInitialized)
    ∧ (XmppBot.reply_to_user botInitNotConnW "hi" "user@example.com" true).2
        = some (.sendError (errSendFailed "user@example.com")) :=
  ⟨((C6_send_guards initialState "hi" "user@example.com" "p" true).1 rfl).1,
   (C6_send_guards botInitNotConnW "hi" "user@example.com" "p" true).2 rfl (Or.inl rfl)⟩

/-- C7: the bot-level handler operations are asymmetric to the sync registry:
add_message_handler and add_presence_handler insert into the async mapping
unconditionally — re-registering a name overwrites with no duplicate error
(the operations cannot fail: their result is a plain state) — while the
remove operations delete from the async mapping when the name is present
there and otherwise fall through to the sync registry remove, which fails
with handler-not-found when the name is absent from both. -/
theorem C7_bot_handler_asymmetry (b : BotState) (name : String)
    (hm : AsyncMsgHandler) (hp : AsyncPresHandler) :
    lookupName name (XmppBot.add_message_handler b name hm).async_message_handlers
        = some hm
  ∧ lookupName name (XmppBot.add_presence_handler b name hp).async_presence_handlers
        = some hp
  ∧ ((lookupName name b.async_message_handlers).isSome = true →
      XmppBot.remove_message_handler b name =
        .ok { b with async_message_handlers := dictRemove b.async_message_handlers name })
  ∧ (lookupName name b.async_message_handlers = none →
      lookupName name b.handlers.message_handlers = none →
      XmppBot.remove_message_handler b name =
        .error (.handlerNotFoundError (errHandlerNotFound name)))
  ∧ (lookupName name b.async_message_handlers = none →
      (lookupName name b.handlers.message_handlers).isSome = true →
      XmppBot.remove_message_handler b name =
        .ok { b with handlers := { b.handlers with
          message_handlers := dictRemove b.handlers.message_handlers name } })
  ∧ ((lookupName name b.async_presence_handlers).isSome = true →
      XmppBot.remove_presence_handler b name =
        .ok { b with async_presence_handlers := dictRemove b.async_presence_handlers name })
  ∧ (lookupName name b.async_presence_handlers = none →
      lookupName name b.handlers.presence_handlers = none →
      XmppBot.remove_presence_handler b name =
        .error (.handlerNotFoundError (errHandlerNotFound name)))
  ∧ (lookupName name b.async_presence_handlers = none →
      (lookupName name b.handlers.presence_handlers).isSome = true →
      XmppBot.remove_presence_handler b name =
        .ok { b with handlers := { b.handlers with
          presence_handlers := dictRemove b.handlers.presence_handlers name } }) := by
  refine ⟨lookupName_dictInsert _ _ _, lookupName_dictInsert _ _ _,
    ?_, ?_, ?_, ?_, ?_, ?_⟩
  · intro h
    rw [XmppBot.remove_message_handler, if_pos h]
  · intro h1 h2
    rw [XmppBot.remove_message_handler, if_neg (by rw [h1]; simp)]
    rw [HandlerRegistry.remove_message_handler, if_pos (by rw [h2]; rfl)]
  · intro h1 h2
    rw [XmppBot.remove_message_handler, if_neg (by rw [h1]; simp)]
    rw [HandlerRegistry.remove_message_handler, if_neg (by rw [h2]; simp)]
  · intro h
    rw [XmppBot.remove_presence_handler, if_pos h]
  · intro h1 h2
    rw [XmppBot.remove_presence_handler, if_neg (by rw [h1]; simp)]
    rw [HandlerRegistry.remove_presence_handler, if_pos (by rw [h2]; rfl)]
  · intro h1 h2
    rw [XmppBot.remove_presence_handler, if_neg (by rw [h1]; simp)]
    rw [HandlerRegistry.remove_presence_handler, if_neg (by rw [h2]; simp)]

/-- Witness for C7: insertion into the empty async mapping, and removal of a
name absent from both mappings failing with handler-not-found. -/
theorem C7_bot_handler_asymmetry_witness :
    lookupName "x" (XmppBot.add_message_handler initialState "x" aOk).async_message_handlers
        = some aOk
    ∧ XmppBot.remove_message_handler initialState "nope"
        = .error (.handlerNotFoundError (errHandlerNotFound "nope")) :=
  ⟨(C7_bot_handler_asymmetry initialState "x" aOk apOk).1,
   (C7_bot_handler_asymmetry initialState "nope" aOk apOk).2.2.2.1 rfl rfl⟩

/-- C8: in the synchronous HandlerRegistry, for either kind, a first add of a
fresh name succeeds; a second add of the same name fails with the
handler-exists condition while the originally registered handler stays in
place; and removing a name not registered in that kind fails with the
handler-not-found condition. -/
theorem C8_sync_registry_duplicate_policy (r : HandlerRegistry) (name : String)
    (h1 h2 : SyncMsgHandler) (p1 p2 : SyncPresHandler) :
    (lookupName name r.message_handlers = none →
      exceptIsOk (r.add_message_handler name h1) = true)
  ∧ (∀ r1, r.add_message_handler name h1 = .ok r1 →
      lookupName name r1.message_handlers = some h1
      ∧ r1.add_message_handler name h2
          = .error (.handlerExistsError (errHandlerExists name)))
  ∧ (lookupName name r.message_handlers = none →
      r.remove_message_handler name
        = .error (.handlerNotFoundError (errHandlerNotFound name)))
  ∧ (lookupName name r.presence_handlers = none →
      exceptIsOk (r.add_presence_handler name p1) = true)
  ∧ (∀ r1, r.add_presence_handler name p1 = .ok r1 →
      lookupName name r1.presence_handlers = some p1
      ∧ r1.add_presence_handler name p2
          = .error (.handlerExistsError (errHandlerExists name)))
  ∧ (lookupName name r.presence_handlers = none →
      r.remove_presence_handler name
        = .error (.handlerNotFoundError (errHandlerNotFound name))) := by
  refine ⟨?_, ?_, ?_, ?_, ?_, ?_⟩
  · intro h
    rw [HandlerRegistry.add_message_handler, if_neg (by rw [h]; simp)]
    rfl
  · intro r1 hok
    rw [HandlerRegistry.add_message_handler] at hok
    split_ifs at hok with hc; cases hok
    refine ⟨lookupName_dictInsert _ _ _, ?_⟩
    rw [HandlerRegistry.add_message_handler,
      if_pos (by rw [lookupName_dictInsert]; rfl)]
  · intro h
    rw [HandlerRegistry.remove_message_handler, if_pos (by rw [h]; rfl)]
  · intro h
    rw [HandlerRegistry.add_presence_handler, if_neg (by rw [h]; simp)]
    rfl
  · intro r1 hok
    rw [HandlerRegistry.add_presence_handler] at hok
    split_ifs at hok with hc; cases hok
    refine ⟨lookupName_dictInsert _ _ _, ?_⟩
    rw [HandlerRegistry.add_presence_handler,
      if_pos (by rw [lookupName_dictInsert]; rfl)]
  · intro h
    rw [HandlerRegistry.remove_presence_handler, if_pos (by rw [h]; rfl)]

/-- Witness for C8: a first add into the empty registry succeeds, and a
remove of an unregistered name fails with handler-not-found. -/
theorem C8_sync_registry_duplicate_policy_witness :
    exceptIsOk (emptyRegistry.add_message_handler "h" hOk) = true
    ∧ emptyRegistry.remove_message_handler "h"
        = .error (.handlerNotFoundError (errHandlerNotFound "h")) :=
  ⟨(C8_sync_registry_duplicate_policy emptyRegistry "h" hOk hRaise pOk pOk).1 rfl,
   (C8_sync_registry_duplicate_policy emptyRegistry "h" hOk hRaise pOk pOk).2.2.1 rfl⟩

/-- Counterexample to C9 as stated: from_dict applies Python bool() to the
debug value, not the truthy-token rule, so a well-formed mapping carrying
the debug string false produces a settings value whose debug field is true,
while the truthy-token parser maps the same string to false. -/
theorem C9_debug_coercion_counterexample :
    exceptDebug (Settings.from_dict dataDebugFalseW) = some true
    ∧ parseBool (some "false") false = false := by
  refine ⟨by decide, by decide⟩

/-- C9 amended: only from-environment construction parses a string debug
flag by the truthy-token rule; from-mapping construction coerces the debug
value with Python bool(), under which every non-empty string — including the
token false — yields true and only the empty string yields false. -/
theorem C9_debug_parsing_amended :
    (∀ (env : String → Option String) (s : Settings),
        Settings.from_env env = .ok s →
        s.debug = parseBool (env envDebug) defaultDebug)
  ∧ (∀ (data : String → Option PyVal) (s : Settings) (v : String),
        data "debug" = some (.vstr v) → Settings.from_dict data = .ok s →
        s.debug = PyVal.truthy (.vstr v))
  ∧ parseBool (some "false") defaultDebug = false
  ∧ PyVal.truthy (.vstr "false") = true
  ∧ PyVal.truthy (.vstr "") = false := by
  refine ⟨?_, ?_, by decide, by decide, by decide⟩
  · intro env s h
    rw [Settings.from_env] at h
    split at h
    · cases h
    · split at h
      · cases h
      · split at h
        · cases h
        · split at h
          · cases h
          · split at h
            · cases h
            · rw [create_ok_eq h]
  · intro data s v hdbg h
    rw [Settings.from_dict] at h
    split at h
    · cases h
    · split at h
      · cases h
      · split at h
        · cases h
        · split at h
          · cases h
          · split at h
            · cases h
            · rw [create_ok_eq h]
              dsimp only
              rw [hdbg]
              rfl

/-- Witness for C9 amended: from-environment construction with the required
fields present and the debug variable set to the string false succeeds and
yields a settings value whose debug field is false, by the truthy-token
rule. -/
theorem C9_debug_parsing_amended_witness :
    Settings.from_env envDebugFalseW = .ok settingsEnvDebugW ∧
    settingsEnvDebugW.debug = false := by
  have hok : Settings.from_env envDebugFalseW = .ok settingsEnvDebugW := rfl
  refine ⟨hok, ?_⟩
  rw [C9_debug_parsing_amended.1 envDebugFalseW settingsEnvDebugW hok]
  decide

/-- C10: an allow-list entry that itself carries a resource suffix is
accepted by allow-list parsing — the address grammar permits a resource part
— but can never match any sender: the allow-list check strips every
candidate to its bare form, which contains no slash, so when every entry of
the allow-list contains a slash the check returns false for every candidate
address whatsoever, and such a list denies all senders instead of allowing
the listed ones. -/
theorem C10_resource_entries_deny_all (st : Settings) (l : List String) (cand : String)
    (hl : st.allowed_jids = some l)
    (hres : ∀ e ∈ l, '/' ∈ e.toList) :
    st.is_jid_allowed cand = false
  ∧ jidPatternMatch "user@example.com/res" = true
  ∧ parseAllowedJids (some "user@example.com/res") = .ok (some ["user@example.com/res"]) := by
  refine ⟨?_, by decide, by decide⟩
  rw [Settings.is_jid_allowed, hl]
  dsimp only
  apply decide_eq_false
  intro hmem
  exact bareJid_no_slash cand (hres _ hmem)

/-- Witness for C10: with the allow-list holding exactly one resource-carrying
entry, both the bare address and the very address written in the entry are
denied. -/
theorem C10_resource_entries_deny_all_witness :
    settingsResOnlyW.is_jid_allowed "user@example.com" = false
    ∧ settingsResOnlyW.is_jid_allowed "user@example.com/res" = false :=
  ⟨(C10_resource_entries_deny_all settingsResOnlyW ["user@example.com/res"]
      "user@example.com" rfl (by decide)).1,
   (C10_resource_entries_deny_all settingsResOnlyW ["user@example.com/res"]
      "user@example.com/res" rfl (by decide)).1⟩
